import Mathlib

/-!
Verification of the conservation-site trail-map core: the geospatial helpers
in src/utils/geo.js, the TTS playback gate in src/utils/ttsManager.js, and the
proximity scanner of the Sitemap component (src/components/Sitemap.jsx).
JavaScript numbers are embedded as real numbers (rationals where concrete
evaluation is needed); the JavaScript value Infinity, reachable in
distanceToPolygonMeters and in the scanner's running minimum, is embedded by
extending the reals with a top element (EReal).
-/

namespace ConservationSite

/-- A latitude/longitude pair, as produced by the geolocation source or the
map configuration ({ lat, lng } objects in the source). -/
structure GeoPoint (α : Type) where
  lat : α
  lng : α

/-- One iteration of the ray-casting loop body of pointInPolygon: does the
horizontal ray from (x, y) to the right cross the polygon edge from vertex
(yi, xi) to vertex (yj, xj)?  Mirrors the condition
`yi > y !== yj > y && x < ((xj - xi) * (y - yi)) / (yj - yi + 0.0) + xi`.
The `&&` short-circuits, so the division is only reached when yi and yj lie on
opposite sides of y (hence yj - yi is nonzero). -/
def crossesRay {α : Type} [LinearOrderedField α] (x y xi yi xj yj : α) : Bool :=
  (decide (yi > y) != decide (yj > y)) &&
    decide (x < (xj - xi) * (y - yi) / (yj - yi + 0) + xi)

/-- Ray-casting point-in-polygon test, from geo.js `pointInPolygon`.
The polygon is a list of [lat, lng] vertices; the JavaScript loop
`for (let i = 0, j = polygon.length - 1; i < polygon.length; j = i++)`
visits index pairs (i, j) with j = n-1 for i = 0 and j = i-1 afterwards. -/
def pointInPolygon {α : Type} [LinearOrderedField α]
    (point : GeoPoint α) (polygon : List (α × α)) : Bool :=
  let x := point.lng
  let y := point.lat
  let n := polygon.length
  (List.range n).foldl
    (fun inside i =>
      let vi := polygon.getD i (0, 0)
      let vj := polygon.getD (if i = 0 then n - 1 else i - 1) (0, 0)
      if crossesRay x y vi.2 vi.1 vj.2 vj.1 then !inside else inside)
    false

/-- The x-coordinate at which the horizontal ray at height y meets the line
through the two edge endpoints does not depend on the orientation of the
edge. -/
theorem crossX_comm {α : Type} [LinearOrderedField α]
    (y xi yi xj yj : α) (hne : yi ≠ yj) :
    (xj - xi) * (y - yi) / (yj - yi + 0) + xi
      = (xi - xj) * (y - yj) / (yi - yj + 0) + xj := by
  have h1 : yj - yi ≠ 0 := sub_ne_zero.mpr (Ne.symm hne)
  have h2 : yi - yj ≠ 0 := sub_ne_zero.mpr hne
  rw [add_zero, add_zero]
  field_simp
  ring

/-- The crossing test is insensitive to the orientation of the edge. -/
theorem crossesRay_comm {α : Type} [LinearOrderedField α]
    (x y xi yi xj yj : α) :
    crossesRay x y xi yi xj yj = crossesRay x y xj yj xi yi := by
  unfold crossesRay
  by_cases h1 : y < yi <;> by_cases h2 : y < yj <;>
    simp only [gt_iff_lt, h1, h2, decide_True, decide_False, bne_self_eq_false,
      Bool.false_and, Bool.true_and, Bool.and_comm]
  · have hne : yi ≠ yj := by
      intro h; rw [h] at h1; exact h2 h1
    rw [crossX_comm y xi yi xj yj hne]
    simp [Bool.and_comm]
  · have hne : yi ≠ yj := by
      intro h; rw [h] at h1; exact h1 h2
    rw [crossX_comm y xi yi xj yj hne]
    simp [Bool.and_comm]

/-- C7: For the square polygon [[0,0],[0,1],[1,1],[1,0]], pointInPolygon
reports {lat:0.5, lng:0.5} inside (true) and {lat:5, lng:5} outside (false),
as the odd/even crossing rule dictates. -/
theorem pointInPolygon_square_cases :
    pointInPolygon (⟨1/2, 1/2⟩ : GeoPoint ℚ) [(0, 0), (0, 1), (1, 1), (1, 0)] = true ∧
    pointInPolygon (⟨5, 5⟩ : GeoPoint ℚ) [(0, 0), (0, 1), (1, 1), (1, 0)] = false := by
  constructor <;> norm_num [pointInPolygon, crossesRay, List.range_succ]

/-- C8: For every query point and every polygon with fewer than 3 vertices,
pointInPolygon returns false; moreover each loop iteration reads indices i and
j that are strictly below the polygon length, so no out-of-bounds access
occurs (the embedding is total, matching the absence of exceptions in the
source). -/
theorem pointInPolygon_short_polygon {α : Type} [LinearOrderedField α]
    (point : GeoPoint α) (polygon : List (α × α))
    (h : polygon.length < 3) :
    pointInPolygon point polygon = false ∧
    (∀ i, i < polygon.length →
      (if i = 0 then polygon.length - 1 else i - 1) < polygon.length) := by
  constructor
  · match polygon, h with
    | [], _ => rfl
    | [a], _ =>
      simp [pointInPolygon, List.range_succ, crossesRay]
    | [a, b], _ =>
      show pointInPolygon point [a, b] = false
      simp only [pointInPolygon, List.length_cons, List.length_nil,
        List.range_succ, List.range_zero, List.nil_append, List.cons_append,
        List.foldl_cons, List.foldl_nil]
      norm_num
      rw [crossesRay_comm point.lng point.lat b.2 b.1 a.2 a.1]
      cases hc : crossesRay point.lng point.lat a.2 a.1 b.2 b.1 <;> simp [hc]
  · intro i hi
    split
    · omega
    · omega

/-- C8 witness: a two-vertex polygon is shorter than 3 and the theorem
applies to it. -/
theorem pointInPolygon_short_polygon_witness :
    (([((1 : ℚ), (1 : ℚ)), (2, 2)] : List (ℚ × ℚ)).length < 3) ∧
    (pointInPolygon (⟨0, 0⟩ : GeoPoint ℚ)
        ([((1 : ℚ), (1 : ℚ)), (2, 2)] : List (ℚ × ℚ)) = false ∧
      (∀ i, i < ([((1 : ℚ), (1 : ℚ)), (2, 2)] : List (ℚ × ℚ)).length →
        (if i = 0
          then ([((1 : ℚ), (1 : ℚ)), (2, 2)] : List (ℚ × ℚ)).length - 1
          else i - 1) <
            ([((1 : ℚ), (1 : ℚ)), (2, 2)] : List (ℚ × ℚ)).length)) :=
  ⟨by decide,
    pointInPolygon_short_polygon ⟨0, 0⟩ [(1, 1), (2, 2)] (by decide)⟩

/-- Degrees-to-radians conversion used throughout geo.js:
`(d * Math.PI) / 180`. -/
noncomputable def toRad (d : ℝ) : ℝ := d * Real.pi / 180

/-- JavaScript Math.atan2 on finite arguments (signed zero ignored):
first-quadrant and axis cases follow the usual quadrant rules, and
atan2(0, 0) = 0. -/
noncomputable def atan2 (y x : ℝ) : ℝ :=
  if 0 < x then Real.arctan (y / x)
  else if x < 0 then
    if 0 ≤ y then Real.arctan (y / x) + Real.pi else Real.arctan (y / x) - Real.pi
  else
    if 0 < y then Real.pi / 2 else if y < 0 then -(Real.pi / 2) else 0

/-- Great-circle distance in meters, from geo.js `haversineMeters`:
mean Earth radius 6371000 m, haversine formula, degrees converted to radians. -/
noncomputable def haversineMeters (lat1 lon1 lat2 lon2 : ℝ) : ℝ :=
  let R : ℝ := 6371000
  let dLat := toRad (lat2 - lat1)
  let dLon := toRad (lon2 - lon1)
  let a := Real.sin (dLat / 2) ^ 2 +
    Real.cos (toRad lat1) * Real.cos (toRad lat2) * Real.sin (dLon / 2) ^ 2
  let c := 2 * atan2 (Real.sqrt a) (Real.sqrt (1 - a))
  R * c

/-- Meters per degree of latitude used by the local equirectangular
projection in geo.js (`const latScale = 111320`). -/
noncomputable def latScale : ℝ := 111320

/-- Meters per degree of longitude near a segment, from geo.js:
`111320 * Math.cos(((a[0] + b[0]) / 2) * (Math.PI / 180))` — the scale uses
the mean latitude of the segment itself. -/
noncomputable def lonScaleOf (a b : ℝ × ℝ) : ℝ :=
  111320 * Real.cos ((a.1 + b.1) / 2 * (Real.pi / 180))

/-- Point-to-segment distance in the local planar frame, from geo.js
`_distancePointToSegmentMeters`.  The JavaScript guard `(ab2 || 1)`
substitutes 1 when the squared segment length is 0, which is embedded as an
if-then-else on `ab2 = 0`. -/
noncomputable def distancePointToSegmentMeters
    (p : GeoPoint ℝ) (a b : ℝ × ℝ) : ℝ :=
  let px := p.lng * lonScaleOf a b
  let py := p.lat * latScale
  let ax := a.2 * lonScaleOf a b
  let ay := a.1 * latScale
  let bx := b.2 * lonScaleOf a b
  let bYy := b.1 * latScale
  let abx := bx - ax
  let aby := bYy - ay
  let apx := px - ax
  let apy := py - ay
  let ab2 := abx * abx + aby * aby
  let t := max 0 (min 1 ((apx * abx + apy * aby) / (if ab2 = 0 then 1 else ab2)))
  let cx := ax + t * abx
  let cy := ay + t * aby
  let dx := px - cx
  let dy := py - cy
  Real.sqrt (dx * dx + dy * dy)

/-- Minimum distance from a point to a polygon, from geo.js
`distanceToPolygonMeters`.  The JavaScript running minimum starts at
Infinity, so the return value lives in the reals extended with a top
element; a zero-edge polygon leaves the minimum untouched. -/
noncomputable def distanceToPolygonMeters
    (point : GeoPoint ℝ) (polygon : List (ℝ × ℝ)) : EReal :=
  if pointInPolygon point polygon then 0
  else
    (List.range polygon.length).foldl
      (fun acc i =>
        let a := polygon.getD i (0, 0)
        let b := polygon.getD ((i + 1) % polygon.length) (0, 0)
        let d : EReal := ((distancePointToSegmentMeters point a b : ℝ) : EReal)
        if d < acc then d else acc)
      ⊤

/-- The arctangent of a nonnegative quotient is nonnegative. -/
theorem atan2_nonneg (y x : ℝ) (hy : 0 ≤ y) (hx : 0 ≤ x) : 0 ≤ atan2 y x := by
  unfold atan2
  split_ifs with h1 h2 h3 h4 <;>
    first
      | exact Real.arctan_zero ▸
          Real.arctan_strictMono.monotone (div_nonneg hy h1.le)
      | linarith [Real.pi_pos]

/-- C9: haversineMeters is a total real-valued function of its (finite)
inputs — it never divides by zero, since the only guarded operation is the
atan2 of two square roots — and it is nonnegative everywhere; in particular
the distance from any point to itself is exactly 0. -/
theorem haversineMeters_nonneg_and_self_zero :
    (∀ lat1 lon1 lat2 lon2 : ℝ, 0 ≤ haversineMeters lat1 lon1 lat2 lon2) ∧
    (∀ lat lon : ℝ, haversineMeters lat lon lat lon = 0) := by
  constructor
  · intro lat1 lon1 lat2 lon2
    simp only [haversineMeters]
    have h := atan2_nonneg
      (Real.sqrt (Real.sin (toRad (lat2 - lat1) / 2) ^ 2 +
        Real.cos (toRad lat1) * Real.cos (toRad lat2) *
          Real.sin (toRad (lon2 - lon1) / 2) ^ 2))
      (Real.sqrt (1 - (Real.sin (toRad (lat2 - lat1) / 2) ^ 2 +
        Real.cos (toRad lat1) * Real.cos (toRad lat2) *
          Real.sin (toRad (lon2 - lon1) / 2) ^ 2)))
      (Real.sqrt_nonneg _) (Real.sqrt_nonneg _)
    positivity
  · intro lat lon
    simp only [haversineMeters, toRad, sub_self, zero_mul, zero_div,
      Real.sin_zero, ne_eq, OfNat.ofNat_ne_zero, not_false_eq_true,
      zero_pow, mul_zero, add_zero, Real.sqrt_zero, sub_zero, Real.sqrt_one]
    simp [atan2, Real.arctan_zero]

/-- C2 counterexample: at the query point (0, 0) and the zero-point polygon,
distanceToPolygonMeters evaluates to Infinity, not 0. -/
theorem distanceToPolygonMeters_empty_ne_zero :
    distanceToPolygonMeters ⟨0, 0⟩ ([] : List (ℝ × ℝ)) ≠ 0 := by
  have hpip : pointInPolygon (⟨0, 0⟩ : GeoPoint ℝ) [] = false := rfl
  simp [distanceToPolygonMeters, hpip]

/-- C2 amended: for every query point, distanceToPolygonMeters applied to a
polygon with zero points returns Infinity — the loop over zero edges leaves
the running minimum at its initial value Infinity. -/
theorem distanceToPolygonMeters_empty (point : GeoPoint ℝ) :
    distanceToPolygonMeters point ([] : List (ℝ × ℝ)) = ⊤ := by
  have hpip : pointInPolygon point ([] : List (ℝ × ℝ)) = false := rfl
  simp [distanceToPolygonMeters, hpip]

/-- A running minimum over extended reals stays nonnegative when every
candidate is nonnegative. -/
theorem foldl_runningMin_nonneg (l : List ℕ) (f : ℕ → EReal)
    (hf : ∀ i, 0 ≤ f i) :
    ∀ acc : EReal, 0 ≤ acc →
      0 ≤ l.foldl (fun acc i => if f i < acc then f i else acc) acc := by
  induction l with
  | nil => intro acc hacc; exact hacc
  | cons head tail ih =>
    intro acc hacc
    simp only [List.foldl_cons]
    by_cases hcmp : f head < acc
    · simp only [if_pos hcmp]; exact ih (f head) (hf head)
    · simp only [if_neg hcmp]; exact ih acc hacc

/-- C10: the point-to-segment helper never divides by zero (the squared edge
length is replaced by 1 when it vanishes) and never produces an undefined
value: it is nonnegative for all inputs, on a degenerate edge (identical
consecutive vertices) it equals the planar distance to that vertex, and the
polygon distance built from it is nonnegative for every polygon of numeric
pairs. -/
theorem distancePointToSegmentMeters_degenerate_safe :
    (∀ (p : GeoPoint ℝ) (a b : ℝ × ℝ), 0 ≤ distancePointToSegmentMeters p a b) ∧
    (∀ (p : GeoPoint ℝ) (a : ℝ × ℝ), distancePointToSegmentMeters p a a =
      Real.sqrt ((p.lng * lonScaleOf a a - a.2 * lonScaleOf a a) *
          (p.lng * lonScaleOf a a - a.2 * lonScaleOf a a) +
        (p.lat * latScale - a.1 * latScale) *
          (p.lat * latScale - a.1 * latScale))) ∧
    (∀ (p : GeoPoint ℝ) (polygon : List (ℝ × ℝ)),
      0 ≤ distanceToPolygonMeters p polygon) := by
  refine ⟨?_, ?_, ?_⟩
  · intro p a b
    simp only [distancePointToSegmentMeters]
    exact Real.sqrt_nonneg _
  · intro p a
    simp only [distancePointToSegmentMeters, sub_self, mul_zero, zero_mul,
      add_zero, zero_div, if_pos rfl, div_one]
  · intro p polygon
    unfold distanceToPolygonMeters
    split
    · exact le_refl 0
    · exact foldl_runningMin_nonneg (List.range polygon.length)
        (fun i => ((distancePointToSegmentMeters p (polygon.getD i (0, 0))
          (polygon.getD ((i + 1) % polygon.length) (0, 0)) : ℝ) : EReal))
        (fun i => EReal.coe_nonneg.mpr (Real.sqrt_nonneg _))
        ⊤ le_top

/-- A point-of-interest record from the map configuration.  A coordinate is
`none` when the JavaScript value fails the `typeof poi.lat !== "number"`
check (missing or non-numeric). -/
structure Poi where
  name : String
  lat : Option ℝ
  lng : Option ℝ

/-- The `for (const poi of pois)` loop of geo.js `getClosestPoiWithinRadius`,
threading the running pair (closest, best); best starts at Infinity and holds
the distance of the stored candidate, so it lives in the extended reals. -/
noncomputable def getClosestPoiLoop (u : GeoPoint ℝ) (radiusMeters : ℝ) :
    List Poi → Option (Poi × ℝ) × EReal → Option (Poi × ℝ) × EReal
  | [], s => s
  | poi :: rest, (closest, best) =>
    match poi.lat, poi.lng with
    | some plat, some plng =>
      let d := haversineMeters u.lat u.lng plat plng
      if d ≤ radiusMeters ∧ ((d : EReal) < best) then
        getClosestPoiLoop u radiusMeters rest (some (poi, d), (d : EReal))
      else
        getClosestPoiLoop u radiusMeters rest (closest, best)
    | _, _ => getClosestPoiLoop u radiusMeters rest (closest, best)

/-- Nearest POI within a radius, from geo.js `getClosestPoiWithinRadius`:
returns none when the user position is absent or the POI list is empty,
otherwise runs the linear scan. -/
noncomputable def getClosestPoiWithinRadius (pois : List Poi)
    (user : Option (GeoPoint ℝ)) (radiusMeters : ℝ) : Option (Poi × ℝ) :=
  match user, pois with
  | none, _ => none
  | some _, [] => none
  | some u, p :: ps => (getClosestPoiLoop u radiusMeters (p :: ps) (none, ⊤)).1

/-- Spec-side qualification of a single POI, following the spec text: POIs
with non-numeric coordinates are skipped, and a POI qualifies exactly when
its haversine distance to the user is at most radiusMeters. -/
noncomputable def qualifies (u : GeoPoint ℝ) (radiusMeters : ℝ)
    (poi : Poi) : Option ℝ :=
  match poi.lat, poi.lng with
  | some plat, some plng =>
    let d := haversineMeters u.lat u.lng plat plng
    if d ≤ radiusMeters then some d else none
  | _, _ => none

/-- Spec-side recursion: the first-encountered qualifying POI of minimum
distance (on an exact tie the earlier POI wins, so the head is preferred
whenever its distance is less than or equal to the best of the tail). -/
noncomputable def nearestAux (u : GeoPoint ℝ) (r : ℝ) :
    List Poi → Option (Poi × ℝ)
  | [] => none
  | poi :: rest =>
    match qualifies u r poi, nearestAux u r rest with
    | none, res => res
    | some d, none => some (poi, d)
    | some d, some qe => if d ≤ qe.2 then some (poi, d) else qe

/-- Spec-side statement of the spec's `nearestPoiWithinRadius` contract,
written from the spec's words (skip invalid POIs, minimum haversine distance
within the radius, first-encountered wins ties, none when nothing qualifies
or the user is absent or the sequence is empty). -/
noncomputable def nearestPoiWithinRadiusSpec (pois : List Poi)
    (user : Option (GeoPoint ℝ)) (radiusMeters : ℝ) : Option (Poi × ℝ) :=
  match user with
  | none => none
  | some u => nearestAux u radiusMeters pois

/-- The scan loop computes the spec recursion relative to any running pair:
the result is the spec answer when the latter strictly beats the running
best, and the running candidate otherwise. -/
theorem getClosestPoiLoop_fst (u : GeoPoint ℝ) (r : ℝ) (l : List Poi) :
    ∀ (closest : Option (Poi × ℝ)) (best : EReal),
      (getClosestPoiLoop u r l (closest, best)).1 =
        match nearestAux u r l with
        | none => closest
        | some qe => if (qe.2 : EReal) < best then some qe else closest := by
  induction l with
  | nil => intro closest best; rfl
  | cons poi rest ih =>
    intro closest best
    rcases hlat : poi.lat with _ | plat
    · simp only [getClosestPoiLoop, nearestAux, qualifies, hlat]
      exact ih closest best
    · rcases hlng : poi.lng with _ | plng
      · simp only [getClosestPoiLoop, nearestAux, qualifies, hlat, hlng]
        exact ih closest best
      · simp only [getClosestPoiLoop, nearestAux, qualifies, hlat, hlng]
        by_cases hdr : haversineMeters u.lat u.lng plat plng ≤ r
        · by_cases hdb :
            ((haversineMeters u.lat u.lng plat plng : ℝ) : EReal) < best
          · rw [if_pos ⟨hdr, hdb⟩, if_pos hdr, ih]
            cases hrest : nearestAux u r rest with
            | none => simp [hdb]
            | some qe =>
              by_cases hde : haversineMeters u.lat u.lng plat plng ≤ qe.2
              · have hnot : ¬ ((qe.2 : EReal) <
                    ((haversineMeters u.lat u.lng plat plng : ℝ) : EReal)) := by
                  rw [EReal.coe_lt_coe_iff]
                  exact not_lt.mpr hde
                simp [hde, hnot, hdb]
              · have hlt : (qe.2 : EReal) <
                    ((haversineMeters u.lat u.lng plat plng : ℝ) : EReal) := by
                  rw [EReal.coe_lt_coe_iff]
                  exact not_le.mp hde
                have hqb : (qe.2 : EReal) < best := lt_trans hlt hdb
                simp [hde, hlt, hqb]
          · rw [if_neg (fun hand => hdb hand.2), if_pos hdr, ih]
            cases hrest : nearestAux u r rest with
            | none => simp [hdb]
            | some qe =>
              by_cases hde : haversineMeters u.lat u.lng plat plng ≤ qe.2
              · have hnot : ¬ ((qe.2 : EReal) < best) := by
                  intro hcon
                  exact hdb (lt_of_le_of_lt (EReal.coe_le_coe_iff.mpr hde) hcon)
                simp [hde, hnot, hdb]
              · simp [hde]
        · rw [if_neg (fun hand => hdr hand.1), if_neg hdr, ih]

/-- C5: geo.js getClosestPoiWithinRadius agrees with the spec-side
description on every POI list, optional user position and radius: invalid
POIs are skipped, the first-encountered POI of minimum haversine distance
within the radius is returned with its distance, and none is returned when
nothing qualifies, the user is absent, or the list is empty. -/
theorem getClosestPoiWithinRadius_eq_spec (pois : List Poi)
    (user : Option (GeoPoint ℝ)) (radiusMeters : ℝ) :
    getClosestPoiWithinRadius pois user radiusMeters =
      nearestPoiWithinRadiusSpec pois user radiusMeters := by
  cases user with
  | none => rfl
  | some u =>
    cases pois with
    | nil => rfl
    | cons p ps =>
      show (getClosestPoiLoop u radiusMeters (p :: ps) (none, ⊤)).1 =
        nearestAux u radiusMeters (p :: ps)
      rw [getClosestPoiLoop_fst]
      cases h : nearestAux u radiusMeters (p :: ps) with
      | none => rfl
      | some qe => simp

/-- Modelled from the spec: the external speech-synthesis SDK handle, an
opaque resource whose stop and close operations "may fail" (disposal errors
are the only behavior the core observes), captured by two failure flags. -/
structure Synth where
  stopThrows : Bool
  closeThrows : Bool
deriving DecidableEq

/-- The module-level state of src/utils/ttsManager.js:
`let isLocked = false; let activeSynthesizer = null;`. -/
structure TTSState where
  isLocked : Bool
  activeSynthesizer : Option Synth
deriving DecidableEq

/-- An attempted operation on a synthesizer handle, recorded so that
theorems can state which disposal calls a ttsManager operation performs. -/
inductive SynthAction where
  | stopSpeaking (s : Synth)
  | close (s : Synth)
deriving DecidableEq

/-- Modelled from the spec: invoking stopSpeakingAsync on the external
handle, which may throw. -/
def callStopSpeaking (s : Synth) : Except Unit Unit :=
  if s.stopThrows then Except.error () else Except.ok ()

/-- Modelled from the spec: invoking close on the external handle, which may
throw (e.g. the resource was already closed by the SDK). -/
def callClose (s : Synth) : Except Unit Unit :=
  if s.closeThrows then Except.error () else Except.ok ()

/-- ttsManager.js `lockTTS`: returns false if already locked, otherwise sets
the lock and returns true.  The pair is (new module state, return value). -/
def lockTTS (st : TTSState) : TTSState × Bool :=
  if st.isLocked then (st, false)
  else ({ st with isLocked := true }, true)

/-- ttsManager.js `unlockTTS`: clears the lock bit and the stored handle
unconditionally (no disposal attempt). -/
def unlockTTS (_st : TTSState) : TTSState :=
  { isLocked := false, activeSynthesizer := none }

/-- ttsManager.js `stopActiveSynthesizer`: snapshots the stored handle,
unconditionally clears the lock and the handle, then best-effort stops and
closes the snapshot.  The stopSpeakingAsync completion callbacks and the
catch handler all `try { close } catch {}`, so a close is attempted on every
path and every disposal failure is swallowed; the returned `Except` is the
outcome seen by the caller, which is therefore always `ok`. -/
def stopActiveSynthesizer (st : TTSState) :
    TTSState × List SynthAction × Except Unit Unit :=
  let cleared : TTSState := { isLocked := false, activeSynthesizer := none }
  match st.activeSynthesizer with
  | none => (cleared, [], Except.ok ())
  | some s =>
    match callStopSpeaking s with
    | Except.ok _ =>
      match callClose s with
      | Except.ok _ =>
        (cleared, [SynthAction.stopSpeaking s, SynthAction.close s], Except.ok ())
      | Except.error _ =>
        (cleared, [SynthAction.stopSpeaking s, SynthAction.close s], Except.ok ())
    | Except.error _ =>
      match callClose s with
      | Except.ok _ =>
        (cleared, [SynthAction.stopSpeaking s, SynthAction.close s], Except.ok ())
      | Except.error _ =>
        (cleared, [SynthAction.stopSpeaking s, SynthAction.close s], Except.ok ())

/-- C3: from every module state, stopActiveSynthesizer leaves the gate
unlocked with no stored handle, never propagates an exception to its caller
(the result is `ok` whether or not stop or close throws), and when a handle
was stored it attempts to stop it and then to close it. -/
theorem stopActiveSynthesizer_release (st : TTSState) :
    (stopActiveSynthesizer st).1 =
      { isLocked := false, activeSynthesizer := none } ∧
    (stopActiveSynthesizer st).2.2 = Except.ok () ∧
    (stopActiveSynthesizer st).2.1 =
      (match st.activeSynthesizer with
        | none => []
        | some s => [SynthAction.stopSpeaking s, SynthAction.close s]) := by
  cases hsynth : st.activeSynthesizer with
  | none => simp [stopActiveSynthesizer, hsynth]
  | some s =>
    cases hstop : callStopSpeaking s <;> cases hclose : callClose s <;>
      simp [stopActiveSynthesizer, hsynth, hstop, hclose]

/-- C6: starting from an unlocked state, lockTTS returns true, and a second
lockTTS with no intervening unlock returns false and leaves both the lock
bit and the stored handle exactly as the first call left them. -/
theorem lockTTS_twice (st : TTSState) (h : st.isLocked = false) :
    (lockTTS st).2 = true ∧
    (lockTTS (lockTTS st).1).2 = false ∧
    (lockTTS (lockTTS st).1).1 = (lockTTS st).1 := by
  simp [lockTTS, h]

/-- C6 witness: the initial module state is unlocked, and the theorem applies
to it. -/
theorem lockTTS_twice_witness :
    (TTSState.mk false none).isLocked = false ∧
    ((lockTTS ⟨false, none⟩).2 = true ∧
      (lockTTS (lockTTS ⟨false, none⟩).1).2 = false ∧
      (lockTTS (lockTTS ⟨false, none⟩).1).1 = (lockTTS ⟨false, none⟩).1) :=
  ⟨rfl, lockTTS_twice ⟨false, none⟩ rfl⟩

/-- The Talking Trees scanner state of the Sitemap component: the `watching`
flag, the latest stored position (`userPos`), the latest scan result
(`closestPoi3m`), the timestamp of the latest scan (`lastCheckedAt`,
timestamps abstracted to naturals), and whether the 15-second interval is
currently armed (the `setInterval` id held by the scan effect). -/
structure ScanState where
  watching : Bool
  userPos : Option (GeoPoint ℝ)
  closestPoi3m : Option (Poi × ℝ)
  lastCheckedAt : Option ℕ
  timerArmed : Bool

/-- The component mounts with watching = false, no position, no result, no
timestamp and no interval. -/
def initialScanState : ScanState :=
  { watching := false, userPos := none, closestPoi3m := none,
    lastCheckedAt := none, timerArmed := false }

/-- The external events driving the scanner: the start/stop buttons, a
position update pushed by the geolocation watch, and an interval tick.
Each event carries the current time, used to stamp `lastCheckedAt`. -/
inductive ScanEvent where
  | startWatch (t : ℕ)
  | stopWatch (t : ℕ)
  | posUpdate (p : GeoPoint ℝ) (t : ℕ)
  | tick (t : ℕ)

/-- The `scan` closure of the Sitemap scan effect: recompute
`getClosestPoiWithinRadius(pois, userPos, 3.0)` and stamp the check time. -/
noncomputable def scanStep (pois : List Poi) (t : ℕ) (s : ScanState) : ScanState :=
  { s with closestPoi3m := getClosestPoiWithinRadius pois s.userPos 3,
           lastCheckedAt := some t }

/-- One run of the scan effect with dependency list [watching, userPos,
pois]: React first runs the previous cleanup (`clearInterval`), then the
body, which either bails out (`if (!watching || !userPos)`) clearing the
result, or scans immediately and arms a fresh interval. -/
noncomputable def runScanEffect (pois : List Poi) (t : ℕ) (s : ScanState) :
    ScanState :=
  let cleanedUp := { s with timerArmed := false }
  match cleanedUp.watching, cleanedUp.userPos with
  | true, some _ => { scanStep pois t cleanedUp with timerArmed := true }
  | _, _ => { cleanedUp with closestPoi3m := none }

/-- The event semantics of the Sitemap scanner.  `startWatch` is a no-op when
a watch id is already stored; otherwise it sets watching and the effect
re-runs (its dependency changed).  `stopWatch` clears the watch, the
position and the result, and the effect re-runs.  A geolocation position
update stores the new position and — because `userPos` is in the effect
dependency list — re-runs the effect.  A `tick` only fires while the
interval is armed and runs `scan` without touching the interval. -/
noncomputable def applyEvent (pois : List Poi) :
    ScanEvent → ScanState → ScanState
  | ScanEvent.startWatch t, s =>
    if s.watching then s else runScanEffect pois t { s with watching := true }
  | ScanEvent.stopWatch t, s =>
    runScanEffect pois t
      { s with watching := false, userPos := none, closestPoi3m := none }
  | ScanEvent.posUpdate p t, s =>
    if s.watching then runScanEffect pois t { s with userPos := some p } else s
  | ScanEvent.tick t, s =>
    if s.timerArmed then scanStep pois t s else s

/-- C1 counterexample: start watching at time 0 (no scan has run, the
timestamp is still none), then deliver a single position update at time 5
with no tick event; the update itself executes a scan, stamping
lastCheckedAt = 5.  Under the claim a scan may execute only on a timer
tick, so the timestamp would still be none. -/
theorem posUpdate_scans_immediately_cex :
    ((applyEvent [] (ScanEvent.startWatch 0) initialScanState).lastCheckedAt
        = none) ∧
    ((applyEvent [] (ScanEvent.posUpdate ⟨44, -63⟩ 5)
        (applyEvent [] (ScanEvent.startWatch 0) initialScanState)).lastCheckedAt
        = some 5) := by
  constructor <;> rfl

/-- C1 amended: while the scanner is watching, a position update stores the
new position and immediately triggers a proximity scan (the scan effect
re-runs because userPos is one of its dependencies), restarting the
15-second interval; between position updates scans run on the interval
tick using the latest stored position. -/
theorem posUpdate_stores_and_scans (pois : List Poi) (p : GeoPoint ℝ)
    (t : ℕ) (s : ScanState) (h : s.watching = true) :
    ((applyEvent pois (ScanEvent.posUpdate p t) s).userPos = some p) ∧
    ((applyEvent pois (ScanEvent.posUpdate p t) s).closestPoi3m =
      getClosestPoiWithinRadius pois (some p) 3) ∧
    ((applyEvent pois (ScanEvent.posUpdate p t) s).lastCheckedAt = some t) ∧
    ((applyEvent pois (ScanEvent.posUpdate p t) s).timerArmed = true) := by
  simp [applyEvent, h, runScanEffect, scanStep]

/-- C1 witness: a concrete watching state with an update at time 7. -/
theorem posUpdate_stores_and_scans_witness :
    ((ScanState.mk true none none none false).watching = true) ∧
    (((applyEvent [] (ScanEvent.posUpdate ⟨1, 2⟩ 7)
        ⟨true, none, none, none, false⟩).userPos = some ⟨1, 2⟩) ∧
      ((applyEvent [] (ScanEvent.posUpdate ⟨1, 2⟩ 7)
        ⟨true, none, none, none, false⟩).closestPoi3m =
          getClosestPoiWithinRadius [] (some ⟨1, 2⟩) 3) ∧
      ((applyEvent [] (ScanEvent.posUpdate ⟨1, 2⟩ 7)
        ⟨true, none, none, none, false⟩).lastCheckedAt = some 7) ∧
      ((applyEvent [] (ScanEvent.posUpdate ⟨1, 2⟩ 7)
        ⟨true, none, none, none, false⟩).timerArmed = true)) :=
  ⟨rfl, posUpdate_stores_and_scans [] ⟨1, 2⟩ 7 ⟨true, none, none, none, false⟩ rfl⟩

/-- C4 counterexample: start watching at time 0, receive a position update at
time 5 (which scans and stamps lastCheckedAt = 5), then stop tracking at
time 6.  Stopping resets watching, the position and the result, but
lastCheckedAt remains some 5, not the initial null claimed. -/
theorem stopWatch_keeps_lastCheckedAt_cex :
    ((applyEvent [] (ScanEvent.stopWatch 6)
        (applyEvent [] (ScanEvent.posUpdate ⟨44, -63⟩ 5)
          (applyEvent [] (ScanEvent.startWatch 0) initialScanState))).watching
        = false) ∧
    ((applyEvent [] (ScanEvent.stopWatch 6)
        (applyEvent [] (ScanEvent.posUpdate ⟨44, -63⟩ 5)
          (applyEvent [] (ScanEvent.startWatch 0) initialScanState))).lastCheckedAt
        = some 5) := by
  constructor <;> rfl

/-- C4 amended: stopping tracking from the Watching state cancels the scan
interval — afterwards a tick event is a no-op — and resets watching to
false, the stored position to none and the last result to none, while
lastCheckedAt keeps the value it had before the stop. -/
theorem stopWatch_resets (pois : List Poi) (t : ℕ) (s : ScanState)
    (_h : s.watching = true) :
    ((applyEvent pois (ScanEvent.stopWatch t) s).watching = false) ∧
    ((applyEvent pois (ScanEvent.stopWatch t) s).userPos = none) ∧
    ((applyEvent pois (ScanEvent.stopWatch t) s).closestPoi3m = none) ∧
    ((applyEvent pois (ScanEvent.stopWatch t) s).timerArmed = false) ∧
    ((applyEvent pois (ScanEvent.stopWatch t) s).lastCheckedAt =
      s.lastCheckedAt) ∧
    (∀ t2 : ℕ, applyEvent pois (ScanEvent.tick t2)
      (applyEvent pois (ScanEvent.stopWatch t) s) =
        applyEvent pois (ScanEvent.stopWatch t) s) := by
  refine ⟨rfl, rfl, rfl, rfl, rfl, ?_⟩
  intro t2
  simp [applyEvent, runScanEffect]

/-- C4 witness: a concrete watching session with a stored timestamp. -/
theorem stopWatch_resets_witness :
    ((ScanState.mk true (some ⟨1, 2⟩) none (some 5) true).watching = true) ∧
    (((applyEvent [] (ScanEvent.stopWatch 6)
        ⟨true, some ⟨1, 2⟩, none, some 5, true⟩).watching = false) ∧
      ((applyEvent [] (ScanEvent.stopWatch 6)
        ⟨true, some ⟨1, 2⟩, none, some 5, true⟩).userPos = none) ∧
      ((applyEvent [] (ScanEvent.stopWatch 6)
        ⟨true, some ⟨1, 2⟩, none, some 5, true⟩).closestPoi3m = none) ∧
      ((applyEvent [] (ScanEvent.stopWatch 6)
        ⟨true, some ⟨1, 2⟩, none, some 5, true⟩).timerArmed = false) ∧
      ((applyEvent [] (ScanEvent.stopWatch 6)
        ⟨true, some ⟨1, 2⟩, none, some 5, true⟩).lastCheckedAt =
          (ScanState.mk true (some ⟨1, 2⟩) none (some 5) true).lastCheckedAt) ∧
      (∀ t2 : ℕ, applyEvent [] (ScanEvent.tick t2)
        (applyEvent [] (ScanEvent.stopWatch 6)
          ⟨true, some ⟨1, 2⟩, none, some 5, true⟩) =
            applyEvent [] (ScanEvent.stopWatch 6)
              ⟨true, some ⟨1, 2⟩, none, some 5, true⟩)) :=
  ⟨rfl, stopWatch_resets [] 6 ⟨true, some ⟨1, 2⟩, none, some 5, true⟩ rfl⟩

end ConservationSite
